import Mathlib

/-!
# Verification of the Docker sandbox execution core

Shallow embedding of `src/services/telegram-bot/sandbox.py` (class
`DockerSandbox`) together with the profile-to-flags mapping used by its
caller `src/services/telegram-bot/bot.py` (`_execute_in_sandbox`).

The Python code interacts with the OS (subprocess launch, waiting with a
deadline, killing a container).  Those interactions are embedded as an
explicit environment value (`ExecEnv`) describing what each external
operation would do: whether `docker run` launches or raises (with the
exception's message), whether the awaited `communicate()` completes with
byte streams and an exit code, exceeds the deadline, or raises, and
whether `docker kill` raises.  `execute` is then a pure function of its
arguments and this environment.  Exception propagation is modelled twice,
faithfully to the `try`/`except` nesting of the source:

* `executeRun` is the total function produced by the handlers (each
  `except` branch returns a populated result), instrumented with the list
  of kill targets issued and the semaphore events performed;
* `executeE` keeps the raise-propagating `Except` semantics of the body,
  so that "never raises" is a real theorem (`executeE` never returns
  `.error`), not a triviality of totality.
-/

namespace D1337

/-- Byte string: the raw stdout/stderr of the subprocess. -/
abbrev Bytes := List Nat

/-- `class SandboxImage(Enum)` from sandbox.py. -/
inductive SandboxImage
  | ALPINE
  | BLACKARCH
deriving DecidableEq

/-- `SandboxImage.value`: the Docker image reference of each member. -/
def SandboxImage.value : SandboxImage → String
  | .ALPINE => "alpine:latest"
  | .BLACKARCH => "blackarchlinux/blackarch:latest"

/-- `@dataclass SandboxResult` from sandbox.py. -/
structure SandboxResult where
  stdout : String
  stderr : String
  exit_code : Int
  execution_time_ms : Nat
  timed_out : Bool
  error : Option String := none
deriving DecidableEq

/-- The configuration fields of `DockerSandbox.__init__`, with the source's
defaults. -/
structure DockerSandbox where
  max_concurrent : Nat := 5
  default_timeout : Nat := 60
  max_memory : String := "256m"
  max_cpus : String := "0.5"
  max_pids : Nat := 100
deriving DecidableEq

/-- The module-level instance `sandbox = DockerSandbox()` at the bottom of
sandbox.py: every field at its default. -/
def sandbox : DockerSandbox := {}

/-- `container_name = f"d1337-sandbox-{secrets.token_hex(8)}"`: the random
hex suffix is passed in as `tok`. -/
def containerName (tok : String) : String :=
  "d1337-sandbox-" ++ tok

/-- `timeout = timeout or self.default_timeout`: `None` and the falsy `0`
both fall back to the sandbox-wide default. -/
def effectiveTimeout (sb : DockerSandbox) (timeout : Option Nat) : Nat :=
  match timeout with
  | none => sb.default_timeout
  | some t => if t = 0 then sb.default_timeout else t

/-- The `docker_args` list built by `DockerSandbox.execute`, lines 74-96 of
sandbox.py: base isolation flags, then `--network none` exactly when
`enable_network` is false, then image and command. -/
def dockerArgs (sb : DockerSandbox) (command : String) (image : SandboxImage)
    (enable_network : Bool) (working_dir : String) (tok : String) : List String :=
  let args : List String :=
    ["docker", "run",
     "--rm",
     "--name", containerName tok,
     "--cap-drop", "ALL",
     "--security-opt", "no-new-privileges",
     "--read-only",
     "--tmpfs", "/tmp:rw,noexec,nosuid,size=64m",
     "--tmpfs", working_dir ++ ":rw,noexec,nosuid,size=32m",
     "--memory", sb.max_memory,
     "--cpus", sb.max_cpus,
     "--pids-limit", toString sb.max_pids,
     "--user", "1000:1000",
     "--workdir", working_dir]
  let args := if enable_network then args else args ++ ["--network", "none"]
  args ++ [image.value, "/bin/sh", "-c", command]

/-- The replacement character U+FFFD emitted by lossy decoding. -/
def replacementChar : Char := Char.ofNat 0xFFFD

/-- Is `b` a UTF-8 continuation byte `0x80..0xBF`? -/
def isCont (b : Nat) : Bool := 0x80 ≤ b && b ≤ 0xBF

/-- Modelled from the Python standard library: `bytes.decode("utf-8",
errors="replace")` as used in sandbox.py lines 114-115.  A total UTF-8
decoder: well-formed sequences decode to their scalar value, anything else
(invalid lead byte, missing or malformed continuation, overlong form,
surrogate, out-of-range) contributes U+FFFD and decoding resumes; it is
defined on every byte sequence, so decoding can never fail.  The fuel
argument only bounds the recursion (each step consumes at least one byte,
so `fuel = length` never runs out); recursion is structural on it so the
decoder reduces inside the kernel. -/
def utf8DecodeAux : Nat → Bytes → List Char
  | 0, _ => []
  | _ + 1, [] => []
  | fuel + 1, b :: rest =>
    if b < 0x80 then
      Char.ofNat b :: utf8DecodeAux fuel rest
    else if 0xC2 ≤ b && b ≤ 0xDF then
      match rest with
      | c1 :: rest2 =>
        if isCont c1 then
          Char.ofNat ((b - 0xC0) * 64 + (c1 - 0x80)) :: utf8DecodeAux fuel rest2
        else
          replacementChar :: utf8DecodeAux fuel (c1 :: rest2)
      | [] => [replacementChar]
    else if 0xE0 ≤ b && b ≤ 0xEF then
      match rest with
      | c1 :: c2 :: rest3 =>
        if isCont c1 && isCont c2
            && (b ≠ 0xE0 || 0xA0 ≤ c1) && (b ≠ 0xED || c1 ≤ 0x9F) then
          Char.ofNat ((b - 0xE0) * 4096 + (c1 - 0x80) * 64 + (c2 - 0x80))
            :: utf8DecodeAux fuel rest3
        else
          replacementChar :: utf8DecodeAux fuel (c1 :: c2 :: rest3)
      | _ => [replacementChar]
    else if 0xF0 ≤ b && b ≤ 0xF4 then
      match rest with
      | c1 :: c2 :: c3 :: rest4 =>
        if isCont c1 && isCont c2 && isCont c3
            && (b ≠ 0xF0 || 0x90 ≤ c1) && (b ≠ 0xF4 || c1 ≤ 0x8F) then
          Char.ofNat ((b - 0xF0) * 262144 + (c1 - 0x80) * 4096
              + (c2 - 0x80) * 64 + (c3 - 0x80))
            :: utf8DecodeAux fuel rest4
        else
          replacementChar :: utf8DecodeAux fuel (c1 :: c2 :: c3 :: rest4)
      | _ => [replacementChar]
    else
      replacementChar :: utf8DecodeAux fuel rest

/-- The characters of the lossy decoding of `bs`. -/
def utf8DecodeChars (bs : Bytes) : List Char :=
  utf8DecodeAux bs.length bs

/-- `stdout.decode("utf-8", errors="replace")`: total on all inputs. -/
def decodeUtf8Replace (bs : Bytes) : String :=
  String.mk (utf8DecodeChars bs)

/-- Outcome of `await asyncio.wait_for(process.communicate(), timeout)`:
natural completion with captured byte streams and exit code, deadline
expiry (`asyncio.TimeoutError`), or some other exception with message
`msg`. -/
inductive WaitOutcome
  | completed (out err : Bytes) (returncode : Int)
  | timedOut
  | raised (msg : String)
deriving DecidableEq

/-- Outcome of `asyncio.create_subprocess_exec(*docker_args, ...)`: either
the subprocess starts, or the launch raises with message `msg`. -/
inductive LaunchOutcome
  | started
  | raised (msg : String)
deriving DecidableEq

/-- What the external world does during one `execute` call. -/
structure ExecEnv where
  launch : LaunchOutcome
  wait : WaitOutcome
  killRaises : Option String
  elapsed_ms : Nat
deriving DecidableEq

/-- The body of `DockerSandbox._kill_container` under raise-propagating
semantics: launching/awaiting `docker kill` either succeeds or raises. -/
def killContainerBody (killRaises : Option String) : Except String Unit :=
  match killRaises with
  | some m => Except.error m
  | none => Except.ok ()

/-- `DockerSandbox._kill_container`: the body wrapped in its
`try`/`except Exception` (a kill failure is logged only, never
re-raised). -/
def killContainer (killRaises : Option String) : Except String Unit :=
  match killContainerBody killRaises with
  | Except.ok u => Except.ok u
  | Except.error _ => Except.ok ()

/-- Semaphore events: `async with self._semaphore` acquires on entry and
releases on exit. -/
inductive SemEvent
  | acquire
  | release
deriving DecidableEq

/-- `DockerSandbox.execute`, instrumented: returns the `SandboxResult`
produced, the list of container names passed to `_kill_container`, and the
semaphore events performed.  The structure mirrors the source: the whole
body runs inside `async with self._semaphore`; the outer `try` wraps
subprocess creation and waiting; `except asyncio.TimeoutError` kills the
container (by the name given to `docker run`) and returns a timeout
result; the outer `except Exception` returns a result with `error`
populated from the exception's message. -/
def executeRun (sb : DockerSandbox) (command : String) (image : SandboxImage)
    (timeout : Option Nat) (enable_network : Bool) (working_dir : String)
    (tok : String) (env : ExecEnv) : SandboxResult × List String × List SemEvent :=
  let t := effectiveTimeout sb timeout
  let container_name := containerName tok
  let _args := dockerArgs sb command image enable_network working_dir tok
  let rk : SandboxResult × List String :=
    match env.launch with
    | .raised m =>
      ({ stdout := "", stderr := "", exit_code := -1,
         execution_time_ms := env.elapsed_ms, timed_out := false,
         error := some m }, [])
    | .started =>
      match env.wait with
      | .completed out err rc =>
        ({ stdout := decodeUtf8Replace out, stderr := decodeUtf8Replace err,
           exit_code := rc, execution_time_ms := env.elapsed_ms,
           timed_out := false, error := none }, [])
      | .timedOut =>
        match killContainer env.killRaises with
        | Except.ok _ =>
          ({ stdout := "", stderr := "Command timed out after " ++ toString t ++ " seconds",
             exit_code := -1, execution_time_ms := env.elapsed_ms,
             timed_out := true, error := none }, [container_name])
        | Except.error m =>
          ({ stdout := "", stderr := "", exit_code := -1,
             execution_time_ms := env.elapsed_ms, timed_out := false,
             error := some m }, [container_name])
      | .raised m =>
        ({ stdout := "", stderr := "", exit_code := -1,
           execution_time_ms := env.elapsed_ms, timed_out := false,
           error := some m }, [])
  (rk.1, rk.2, [SemEvent.acquire, SemEvent.release])

/-- `DockerSandbox.execute` under raise-propagating semantics: the body may
raise (`Except.error`), and the outer `except Exception` converts any
escaped exception into a populated result.  `executeE` returning `.ok` for
every environment is exactly the "never raises" guarantee. -/
def executeE (sb : DockerSandbox) (command : String) (image : SandboxImage)
    (timeout : Option Nat) (enable_network : Bool) (working_dir : String)
    (tok : String) (env : ExecEnv) : Except String SandboxResult :=
  let t := effectiveTimeout sb timeout
  let body : Except String SandboxResult :=
    match env.launch with
    | .raised m => Except.error m
    | .started =>
      match env.wait with
      | .completed out err rc =>
        Except.ok { stdout := decodeUtf8Replace out, stderr := decodeUtf8Replace err,
                    exit_code := rc, execution_time_ms := env.elapsed_ms,
                    timed_out := false, error := none }
      | .timedOut =>
        (killContainer env.killRaises).bind fun _ =>
          Except.ok { stdout := "",
                      stderr := "Command timed out after " ++ toString t ++ " seconds",
                      exit_code := -1, execution_time_ms := env.elapsed_ms,
                      timed_out := true, error := none }
      | .raised m => Except.error m
  match body with
  | Except.ok r => Except.ok r
  | Except.error m =>
    Except.ok { stdout := "", stderr := "", exit_code := -1,
                execution_time_ms := env.elapsed_ms, timed_out := false,
                error := some m }

/-- The image-to-network mapping of every `execute` call in bot.py:
`_execute_in_sandbox(..., SandboxImage.ALPINE, enable_network=False)` for
`/exec` and `/do`, `_execute_in_sandbox(..., SandboxImage.BLACKARCH,
enable_network=True)` for `/pt`. -/
def botEnableNetwork (image : SandboxImage) : Bool :=
  image == SandboxImage.BLACKARCH

/-- The timeout bot.py passes at its single `sandbox.execute` call site
(line 322): `timeout=120 if image == SandboxImage.BLACKARCH else 60`. -/
def botTimeout (image : SandboxImage) : Nat :=
  if image == SandboxImage.BLACKARCH then 120 else 60

/-- Does the list contain the element `a` immediately followed by `b`?
Used to observe flag-value pairs such as `--network none` in the
constructed argument list. -/
def hasAdjacent (a b : String) : List String → Bool
  | x :: y :: rest => (decide (x = a) && decide (y = b)) || hasAdjacent a b (y :: rest)
  | _ => false

/-- Run `asyncio.Semaphore` admission over an event trace: an `acquire`
can only fire while the counter is positive (otherwise the caller is still
suspended and the trace is not schedulable); `release` increments. -/
def semAdmissible : Nat → List SemEvent → Bool
  | _, [] => true
  | v, SemEvent.acquire :: rest => decide (0 < v) && semAdmissible (v - 1) rest
  | v, SemEvent.release :: rest => semAdmissible (v + 1) rest

/-- Executions past permit acquisition and not yet completed, read off a
trace prefix. -/
def inFlight (tr : List SemEvent) : Nat :=
  tr.count SemEvent.acquire - tr.count SemEvent.release

/-- Mutual exclusion of the outcome indications on a result: a timeout
carries `exit_code = -1` and no error string; an error carries
`timed_out = false`, `exit_code = -1` and empty streams. -/
def resultInvariant (r : SandboxResult) : Bool :=
  (!r.timed_out || (r.exit_code == -1 && r.error == none)) &&
  (r.error == none ||
    (!r.timed_out && r.exit_code == -1 && r.stdout == "" && r.stderr == ""))

/-- Outcome of the `docker info` probe in
`DockerSandbox.check_docker_available`. -/
inductive ProbeOutcome
  | exited (returncode : Int)
  | raised (msg : String)
deriving DecidableEq

/-- `DockerSandbox.check_docker_available`: true iff the probe process
exits with code 0; any exception is caught and yields false. -/
def check_docker_available (p : ProbeOutcome) : Bool :=
  match p with
  | .exited rc => rc == 0
  | .raised _ => false

/-- `check_docker_available` under raise-propagating semantics: the body
may raise, the `except Exception` handler returns `False`. -/
def check_docker_availableE (p : ProbeOutcome) : Except String Bool :=
  let body : Except String Bool :=
    match p with
    | .exited rc => Except.ok (rc == 0)
    | .raised m => Except.error m
  match body with
  | Except.ok b => Except.ok b
  | Except.error _ => Except.ok false

end D1337

namespace D1337

/-- Admission safety: running the semaphore from `v` free permits, every
prefix of an admissible trace has at most `v` more acquisitions than
releases. -/
theorem semAdmissible_count_bound :
    ∀ (tr : List SemEvent) (v k : Nat), semAdmissible v tr = true →
      (tr.take k).count SemEvent.acquire ≤ v + (tr.take k).count SemEvent.release := by
  intro tr
  induction tr with
  | nil => intro v k _; simp
  | cons e rest ih =>
    intro v k h
    cases k with
    | zero => simp
    | succ k =>
      cases e with
      | acquire =>
        simp only [semAdmissible, Bool.and_eq_true, decide_eq_true_eq] at h
        obtain ⟨hv, h2⟩ := h
        have hrec := ih (v - 1) k h2
        simp [List.take_succ_cons, List.count_cons]
        omega
      | release =>
        simp only [semAdmissible] at h
        have hrec := ih (v + 1) k h
        simp [List.take_succ_cons, List.count_cons]
        omega

end D1337

namespace D1337

/-- Claim C1: for every command, image, timeout, network flag and working
directory, `DockerSandbox.execute` returns a `SandboxResult` and never
raises: under raise-propagating semantics of every suboperation, the
nested `try`/`except` handlers convert natural completion, deadline
expiry, and any exception during launch or wait into the populated result
that the total function `executeRun` produces. -/
theorem claim_C1 (sb : DockerSandbox) (command : String) (image : SandboxImage)
    (timeout : Option Nat) (enable_network : Bool) (working_dir : String)
    (tok : String) (env : ExecEnv) :
    executeE sb command image timeout enable_network working_dir tok env =
      Except.ok (executeRun sb command image timeout enable_network working_dir tok env).1 := by
  cases env with
  | mk launch wait killRaises elapsed_ms =>
    cases launch <;> cases wait <;> cases killRaises <;> rfl

/-- Claim C2: on deadline expiry, `execute` kills exactly the container
name it passed to `docker run` (`--name` is immediately followed by that
same name in the argument list), a `docker kill` failure never escapes
`_kill_container`, and the result has `timed_out = true`,
`exit_code = -1` and empty (no salvaged) stdout. -/
theorem claim_C2 (sb : DockerSandbox) (command : String) (image : SandboxImage)
    (timeout : Option Nat) (enable_network : Bool) (working_dir : String)
    (tok : String) (env : ExecEnv)
    (hlaunch : env.launch = LaunchOutcome.started)
    (hwait : env.wait = WaitOutcome.timedOut) :
    (executeRun sb command image timeout enable_network working_dir tok env).2.1 =
        [containerName tok]
    ∧ hasAdjacent "--name" (containerName tok)
        (dockerArgs sb command image enable_network working_dir tok) = true
    ∧ killContainer env.killRaises = Except.ok ()
    ∧ (executeRun sb command image timeout enable_network working_dir tok env).1.timed_out = true
    ∧ (executeRun sb command image timeout enable_network working_dir tok env).1.exit_code = -1
    ∧ (executeRun sb command image timeout enable_network working_dir tok env).1.stdout = "" := by
  cases env with
  | mk launch wait killRaises elapsed_ms =>
    cases hlaunch
    cases hwait
    refine ⟨?_, ?_, ?_, ?_, ?_, ?_⟩
    · cases killRaises <;> rfl
    · cases enable_network <;> simp [hasAdjacent, dockerArgs]
    · cases killRaises <;> rfl
    · cases killRaises <;> rfl
    · cases killRaises <;> rfl
    · cases killRaises <;> rfl

/-- Witness for C2 at a concrete timed-out execution whose kill raises. -/
theorem claim_C2_witness :
    (executeRun sandbox "x" SandboxImage.ALPINE (some 5) false "/workspace" "ab"
        ⟨LaunchOutcome.started, WaitOutcome.timedOut, some "boom", 123⟩).2.1 =
        [containerName "ab"]
    ∧ hasAdjacent "--name" (containerName "ab")
        (dockerArgs sandbox "x" SandboxImage.ALPINE false "/workspace" "ab") = true
    ∧ killContainer (some "boom") = Except.ok ()
    ∧ (executeRun sandbox "x" SandboxImage.ALPINE (some 5) false "/workspace" "ab"
        ⟨LaunchOutcome.started, WaitOutcome.timedOut, some "boom", 123⟩).1.timed_out = true
    ∧ (executeRun sandbox "x" SandboxImage.ALPINE (some 5) false "/workspace" "ab"
        ⟨LaunchOutcome.started, WaitOutcome.timedOut, some "boom", 123⟩).1.exit_code = -1
    ∧ (executeRun sandbox "x" SandboxImage.ALPINE (some 5) false "/workspace" "ab"
        ⟨LaunchOutcome.started, WaitOutcome.timedOut, some "boom", 123⟩).1.stdout = "" :=
  claim_C2 sandbox "x" SandboxImage.ALPINE (some 5) false "/workspace" "ab"
    ⟨LaunchOutcome.started, WaitOutcome.timedOut, some "boom", 123⟩ rfl rfl

/-- Claim C3: every `execute` call performs exactly one semaphore acquire
followed by exactly one release on every terminal path (the environment is
arbitrary, so this covers success, timeout and launch failure), and under
the semaphore's admission rule the number of in-flight executions never
exceeds the permit count, whose configured default is 5. -/
theorem claim_C3 (sb : DockerSandbox) (command : String) (image : SandboxImage)
    (timeout : Option Nat) (enable_network : Bool) (working_dir : String)
    (tok : String) (env : ExecEnv) (N : Nat) (tr : List SemEvent) (k : Nat)
    (hadm : semAdmissible N tr = true) :
    (executeRun sb command image timeout enable_network working_dir tok env).2.2 =
        [SemEvent.acquire, SemEvent.release]
    ∧ inFlight (tr.take k) ≤ N
    ∧ sandbox.max_concurrent = 5 := by
  refine ⟨rfl, ?_, rfl⟩
  have := semAdmissible_count_bound tr N k hadm
  unfold inFlight
  omega

/-- Witness for C3 at a concrete admissible trace and execution. -/
theorem claim_C3_witness :
    (executeRun sandbox "x" SandboxImage.ALPINE none false "/workspace" "t"
        ⟨LaunchOutcome.started, WaitOutcome.completed [] [] 0, none, 1⟩).2.2 =
        [SemEvent.acquire, SemEvent.release]
    ∧ inFlight ([SemEvent.acquire, SemEvent.release].take 1) ≤ 5
    ∧ sandbox.max_concurrent = 5 :=
  claim_C3 sandbox "x" SandboxImage.ALPINE none false "/workspace" "t"
    ⟨LaunchOutcome.started, WaitOutcome.completed [] [] 0, none, 1⟩ 5
    [SemEvent.acquire, SemEvent.release] 1 (by decide)

/-- Counterexample to C4 as stated: when the launch raises an exception
whose message is the empty string, the result's error string is
`str(e) = ""`, which is not non-empty. -/
theorem claim_C4_counterexample :
    (executeRun sandbox "id" SandboxImage.ALPINE none false "/workspace" "ab"
        ⟨LaunchOutcome.raised "", WaitOutcome.timedOut, none, 7⟩).1.error = some ""
    ∧ ("" : String).length = 0 :=
  ⟨rfl, rfl⟩

/-- Claim C4 (amended): when starting the subprocess raises, `execute`
attempts no kill and returns `error` populated with the exception's
message (empty only when that message is empty), `exit_code = -1` and
`timed_out = false`. -/
theorem claim_C4 (sb : DockerSandbox) (command : String) (image : SandboxImage)
    (timeout : Option Nat) (enable_network : Bool) (working_dir : String)
    (tok : String) (env : ExecEnv) (msg : String)
    (hlaunch : env.launch = LaunchOutcome.raised msg) :
    (executeRun sb command image timeout enable_network working_dir tok env).2.1 = []
    ∧ (executeRun sb command image timeout enable_network working_dir tok env).1.error = some msg
    ∧ (executeRun sb command image timeout enable_network working_dir tok env).1.exit_code = -1
    ∧ (executeRun sb command image timeout enable_network working_dir tok env).1.timed_out = false := by
  cases env with
  | mk launch wait killRaises elapsed_ms =>
    cases hlaunch
    exact ⟨rfl, rfl, rfl, rfl⟩

/-- Witness for C4 (amended) at a concrete failed launch. -/
theorem claim_C4_witness :
    (executeRun sandbox "id" SandboxImage.ALPINE none false "/workspace" "cd"
        ⟨LaunchOutcome.raised "boom", WaitOutcome.timedOut, none, 9⟩).2.1 = []
    ∧ (executeRun sandbox "id" SandboxImage.ALPINE none false "/workspace" "cd"
        ⟨LaunchOutcome.raised "boom", WaitOutcome.timedOut, none, 9⟩).1.error = some "boom"
    ∧ (executeRun sandbox "id" SandboxImage.ALPINE none false "/workspace" "cd"
        ⟨LaunchOutcome.raised "boom", WaitOutcome.timedOut, none, 9⟩).1.exit_code = -1
    ∧ (executeRun sandbox "id" SandboxImage.ALPINE none false "/workspace" "cd"
        ⟨LaunchOutcome.raised "boom", WaitOutcome.timedOut, none, 9⟩).1.timed_out = false :=
  claim_C4 sandbox "id" SandboxImage.ALPINE none false "/workspace" "cd"
    ⟨LaunchOutcome.raised "boom", WaitOutcome.timedOut, none, 9⟩ "boom" rfl

end D1337

namespace D1337

/-- Claim C5: the constructed docker arguments contain the adjacent pair
`--network none` exactly when `enable_network` is false; under the bot's
profile mapping (ALPINE/minimal gets `enable_network=False`,
BLACKARCH/extended gets `enable_network=True`), the network namespace is
disabled exactly for the minimal profile. -/
theorem claim_C5 (command : String) (image : SandboxImage)
    (enable_network : Bool) (working_dir tok : String) :
    hasAdjacent "--network" "none"
        (dockerArgs sandbox command image enable_network working_dir tok) =
      !enable_network
    ∧ hasAdjacent "--network" "none"
        (dockerArgs sandbox command image (botEnableNetwork image) working_dir tok) =
      (image == SandboxImage.ALPINE) := by
  cases image <;> cases enable_network <;>
    exact ⟨by simp [hasAdjacent, dockerArgs, sandbox, botEnableNetwork, SandboxImage.value],
           by simp [hasAdjacent, dockerArgs, sandbox, botEnableNetwork, SandboxImage.value]⟩

/-- Counterexample to C6 as stated: an `execute` call on the extended
(BLACKARCH) image with no timeout supplied uses the sandbox-wide default
deadline of 60 seconds, not a per-profile 120 seconds. -/
theorem claim_C6_counterexample :
    (executeRun sandbox "sleep 90" SandboxImage.BLACKARCH none false "/workspace" "ab"
        ⟨LaunchOutcome.started, WaitOutcome.timedOut, none, 61000⟩).1.stderr =
      "Command timed out after 60 seconds"
    ∧ effectiveTimeout sandbox none = 60
    ∧ (60 : Nat) ≠ 120 := by
  refine ⟨by decide, rfl, by decide⟩

/-- Claim C6 (amended): when the timeout argument is not supplied,
`execute` falls back to the single sandbox-wide `default_timeout` of 60
seconds for every image; the 60s-minimal / 120s-extended deadlines come
from the bot caller, which always supplies the timeout explicitly (120 for
BLACKARCH, 60 for ALPINE), and an explicitly supplied per-profile timeout
is used as given. -/
theorem claim_C6 (image : SandboxImage) :
    effectiveTimeout sandbox none = sandbox.default_timeout
    ∧ sandbox.default_timeout = 60
    ∧ botTimeout SandboxImage.ALPINE = 60
    ∧ botTimeout SandboxImage.BLACKARCH = 120
    ∧ effectiveTimeout sandbox (some (botTimeout image)) = botTimeout image := by
  cases image <;> exact ⟨rfl, rfl, rfl, rfl, rfl⟩

/-- Claim C7: for every request, the argument list passed to `docker run`
is exactly the configured isolation flag set — drop-all capabilities,
no-new-privileges, read-only root, tmpfs `/tmp` rw/noexec/nosuid/size=64m,
tmpfs at the working directory rw/noexec/nosuid/size=32m, memory 256m,
cpus 0.5, pids-limit 100, user 1000:1000, workdir set — followed by the
network flag (absent iff network is enabled), the image and the shell
command. -/
theorem claim_C7 (command : String) (image : SandboxImage)
    (enable_network : Bool) (working_dir tok : String) :
    dockerArgs sandbox command image enable_network working_dir tok =
      ["docker", "run", "--rm", "--name", containerName tok,
       "--cap-drop", "ALL", "--security-opt", "no-new-privileges", "--read-only",
       "--tmpfs", "/tmp:rw,noexec,nosuid,size=64m",
       "--tmpfs", working_dir ++ ":rw,noexec,nosuid,size=32m",
       "--memory", "256m", "--cpus", "0.5", "--pids-limit", "100",
       "--user", "1000:1000", "--workdir", working_dir]
      ++ (if enable_network then [] else ["--network", "none"])
      ++ [image.value, "/bin/sh", "-c", command] := by
  cases enable_network <;> rfl

/-- Claim C8: an execution that completes naturally within its deadline
yields the process's exit code verbatim, `timed_out = false`, no error
string, and both streams decoded by the total lossy UTF-8 decoder (so
decoding is defined for every byte sequence the process emits). -/
theorem claim_C8 (sb : DockerSandbox) (command : String) (image : SandboxImage)
    (timeout : Option Nat) (enable_network : Bool) (working_dir : String)
    (tok : String) (env : ExecEnv) (out err : Bytes) (rc : Int)
    (hlaunch : env.launch = LaunchOutcome.started)
    (hwait : env.wait = WaitOutcome.completed out err rc) :
    (executeRun sb command image timeout enable_network working_dir tok env).1 =
      { stdout := decodeUtf8Replace out, stderr := decodeUtf8Replace err,
        exit_code := rc, execution_time_ms := env.elapsed_ms,
        timed_out := false, error := none } := by
  cases env with
  | mk launch wait killRaises elapsed_ms =>
    cases hlaunch
    cases hwait
    rfl

/-- Witness for C8: a natural completion with non-zero exit code 3 and an
invalid UTF-8 byte on stderr, decoded to U+FFFD rather than failing. -/
theorem claim_C8_witness :
    (executeRun sandbox "x" SandboxImage.ALPINE (some 10) false "/workspace" "ef"
        ⟨LaunchOutcome.started, WaitOutcome.completed [104, 105] [255] 3, none, 42⟩).1 =
      { stdout := "hi", stderr := "�", exit_code := 3,
        execution_time_ms := 42, timed_out := false, error := none } :=
  (claim_C8 sandbox "x" SandboxImage.ALPINE (some 10) false "/workspace" "ef"
    ⟨LaunchOutcome.started, WaitOutcome.completed [104, 105] [255] 3, none, 42⟩
    [104, 105] [255] 3 rfl rfl).trans (by decide)

/-- Claim C9: `check_docker_available` always returns a boolean and never
raises (under raise-propagating semantics the `except` handler yields
`false`), and it returns true exactly when the `docker info` probe exits
with code 0. -/
theorem claim_C9 (p : ProbeOutcome) :
    check_docker_availableE p = Except.ok (check_docker_available p)
    ∧ (check_docker_available p = true ↔ p = ProbeOutcome.exited 0) := by
  cases p with
  | exited rc =>
    refine ⟨rfl, ?_⟩
    simp [check_docker_available]
  | raised msg =>
    refine ⟨rfl, ?_⟩
    simp [check_docker_available]

/-- Claim C10: every result produced by `execute` satisfies the
mutual-exclusion invariant on its outcome fields: a timeout implies
`exit_code = -1` and no error; a populated error implies
`timed_out = false`, `exit_code = -1` and empty streams. -/
theorem claim_C10 (sb : DockerSandbox) (command : String) (image : SandboxImage)
    (timeout : Option Nat) (enable_network : Bool) (working_dir : String)
    (tok : String) (env : ExecEnv) :
    resultInvariant
      (executeRun sb command image timeout enable_network working_dir tok env).1 = true := by
  cases env with
  | mk launch wait killRaises elapsed_ms =>
    cases launch <;> cases wait <;> cases killRaises <;> rfl

end D1337
